import Mathlib

/-!
Shallow embedding of the dfx build/watch pipeline
(src/dfx/src/lib/build.rs, src/dfx/src/lib/env.rs,
src/dfx/src/commands/build.rs, src/dfx/src/config/mod.rs).

External process invocations are modelled as values of `Command`; running a
command (std::process::Command::output) is a function supplied by the
environment, returning either a spawn failure or a `ProcessOutput` carrying
the exit status and the captured stderr text. Paths are strings; the path
manipulation functions mirror the Rust std semantics used by the code
(Path::with_extension, Path::parent, Path::join, fs::create_dir_all).
-/

/-- One external process invocation: binary plus argument list
(std::process::Command). -/
structure Command where
  bin : String
  args : List String
deriving DecidableEq

/-- Result of running a child process to completion (std::process::Output):
the exit status (success = status code 0) and the captured stderr text. -/
structure ProcessOutput where
  success : Bool
  stderr : String
deriving DecidableEq

/-- Modelled from the spec: the error taxonomy of src/dfx/src/lib/error.rs,
which is not under src/. A step failure carries the stage identifier and the
raw stderr text; io failures carry their message. -/
inductive BuildErrorKind where
  | ActorScriptError : String → BuildErrorKind
  | IdlCompilerError : String → BuildErrorKind
deriving DecidableEq

/-- Modelled from the spec: DfxError of src/dfx/src/lib/error.rs (not under
src/), as consumed by build.rs: an io error (spawn/watch/create_dir failures
converted by the question-mark operator) or a build error. -/
inductive DfxError where
  | IoError : String → DfxError
  | BuildError : BuildErrorKind → DfxError
deriving DecidableEq

/- ---------- path helpers (Rust std::path semantics) ---------- -/

/-- On the reversed character list of a file name, drop the extension and the
dot, returning the reversed stem; `none` when the file name has no extension
(no dot, or only a leading dot), mirroring Path::file_stem. -/
def dropExtRev : List Char → Option (List Char)
  | [] => none
  | c :: rest => if c = '.' then (if rest.isEmpty then none else some rest) else dropExtRev rest

/-- Path::with_extension: replace the extension of the final path component
(the part after its last dot, if any) by `ext`. -/
def with_extension (p ext : String) : String :=
  let rev := p.data.reverse
  let fnRev := rev.takeWhile (fun c => c ≠ '/')
  let dirRev := rev.dropWhile (fun c => c ≠ '/')
  let stemRev :=
    match dropExtRev fnRev with
    | some r => r
    | none => fnRev
  String.mk (dirRev.reverse ++ stemRev.reverse ++ '.' :: ext.data)

/-- Path::parent: the path with its final component and separator removed. -/
def parentDir (p : String) : String :=
  String.mk (((p.data.reverse.dropWhile (fun c => c ≠ '/')).drop 1).reverse)

/-- Path::join with a relative right-hand side. -/
def pathJoin (a b : String) : String :=
  a ++ "/" ++ b

/-- Split a character list on '/' into path components. -/
def splitOnSlash : List Char → List (List Char)
  | [] => [[]]
  | c :: rest =>
    let r := splitOnSlash rest
    if c = '/' then [] :: r
    else
      match r with
      | [] => [[c]]
      | h :: t => (c :: h) :: t

/-- Rejoin path components with '/'. -/
def joinComps : List (List Char) → List Char
  | [] => []
  | [c] => c
  | c :: rest => c ++ '/' :: joinComps rest

/-- All ancestors of a path, innermost last: the prefixes at each component
boundary, the path itself included. -/
def pathPrefixes (p : String) : List String :=
  let comps := splitOnSlash p.data
  (List.range comps.length).map (fun i => String.mk (joinComps (comps.take (i + 1))))

/- ---------- filesystem model ---------- -/

/-- The fragment of filesystem state create_dir_all depends on: which paths
are directories and which are regular files. -/
structure FS where
  dirs : List String
  files : List String
deriving DecidableEq

/-- std::fs::create_dir_all: create the directory and every missing ancestor;
succeeds when the directory already exists, fails when some ancestor (or the
path itself) is an existing regular file. -/
def create_dir_all (p : String) (fs : FS) : Except DfxError FS :=
  if (pathPrefixes p).any (fun a => decide (a ∈ fs.files)) then
    Except.error (DfxError.IoError "NotADirectory")
  else
    Except.ok ⟨fs.dirs ++ (pathPrefixes p).filter (fun a => decide (a ∉ fs.dirs)), fs.files⟩

/- ---------- build_file (src/dfx/src/lib/build.rs) ---------- -/

/-- The BinaryResolverEnv trait as build.rs consumes it: get_binary_command
resolves a logical binary name to a ready process command (io failures
possible), and run_output models std::process::Command::output — it fails
only when the child cannot be spawned; a non-zero exit status is returned
inside `ProcessOutput`, not as an error. -/
structure BinaryResolverEnv where
  get_binary_command : String → Except DfxError Command
  run_output : Command → Except DfxError ProcessOutput

/-- build_file of src/dfx/src/lib/build.rs, with its trace: the list of
commands actually executed (in order) paired with the returned result. The
question-mark operator propagates only io errors from get_binary_command and
from output(); the exit status and stderr inside a returned ProcessOutput are
never inspected. -/
def build_file (env : BinaryResolverEnv) (input_path output_path : String) :
    List Command × Except DfxError Unit :=
  let output_wasm_path := with_extension output_path "wasm"
  let output_idl_path := with_extension output_path "did"
  let output_js_path := with_extension output_path "js"
  match env.get_binary_command "asc" with
  | Except.error e => ([], Except.error e)
  | Except.ok c =>
    let c1 : Command := ⟨c.bin, c.args ++ [input_path, "-o", output_wasm_path]⟩
    match env.run_output c1 with
    | Except.error e => ([c1], Except.error e)
    | Except.ok _ =>
      match env.get_binary_command "asc" with
      | Except.error e => ([c1], Except.error e)
      | Except.ok c' =>
        let c2 : Command := ⟨c'.bin, c'.args ++ ["--idl", input_path, "-o", output_idl_path]⟩
        match env.run_output c2 with
        | Except.error e => ([c1, c2], Except.error e)
        | Except.ok _ =>
          match env.get_binary_command "didc" with
          | Except.error e => ([c1, c2], Except.error e)
          | Except.ok c'' =>
            let c3 : Command := ⟨c''.bin, c''.args ++ ["--js", output_idl_path, "-o", output_js_path]⟩
            match env.run_output c3 with
            | Except.error e => ([c1, c2, c3], Except.error e)
            | Except.ok _ => ([c1, c2, c3], Except.ok ())

/- ---------- step-command builders (src/dfx/src/lib/env.rs) ---------- -/

/-- ActorScriptCommandBuilder of src/dfx/src/lib/env.rs: binary path plus
accumulated input path, output path and the idl flag. -/
structure ActorScriptCommandBuilder where
  binary_path : String
  input_path : Option String
  output_path : Option String
  idl : Bool
deriving DecidableEq

/-- The command assembled by ActorScriptCommandBuilder::exec, in the order
the source pushes the arguments: the input path (if set), then "-o" with the
output path (if set), then "--idl" when the idl flag is set. -/
def ActorScriptCommandBuilder.exec_cmd (b : ActorScriptCommandBuilder) : Command :=
  ⟨b.binary_path,
    (match b.input_path with | some ip => [ip] | none => []) ++
    (match b.output_path with | some op => ["-o", op] | none => []) ++
    (if b.idl then ["--idl"] else [])⟩

/-- ActorScriptCommandBuilder::exec: run the assembled command; on non-zero
exit wrap the captured stderr in BuildError(ActorScriptError). -/
def ActorScriptCommandBuilder.exec (b : ActorScriptCommandBuilder)
    (run : Command → Except DfxError ProcessOutput) : Except DfxError Unit :=
  match run b.exec_cmd with
  | Except.error e => Except.error e
  | Except.ok o =>
    if o.success then Except.ok ()
    else Except.error (DfxError.BuildError (BuildErrorKind.ActorScriptError o.stderr))

/-- IdlCompilerCommandBuilder of src/dfx/src/lib/env.rs. -/
structure IdlCompilerCommandBuilder where
  binary_path : String
  input_path : Option String
  output_path : Option String
  js : Bool
deriving DecidableEq

/-- The command assembled by IdlCompilerCommandBuilder::exec, in the order
the source pushes the arguments: the input path (if set), then "-o" with the
output path (if set), then "--js" when the js flag is set. -/
def IdlCompilerCommandBuilder.exec_cmd (b : IdlCompilerCommandBuilder) : Command :=
  ⟨b.binary_path,
    (match b.input_path with | some ip => [ip] | none => []) ++
    (match b.output_path with | some op => ["-o", op] | none => []) ++
    (if b.js then ["--js"] else [])⟩

/-- IdlCompilerCommandBuilder::exec: run the assembled command; on non-zero
exit wrap the captured stderr in BuildError(IdlCompilerError). -/
def IdlCompilerCommandBuilder.exec (b : IdlCompilerCommandBuilder)
    (run : Command → Except DfxError ProcessOutput) : Except DfxError Unit :=
  match run b.exec_cmd with
  | Except.error e => Except.error e
  | Except.ok o =>
    if o.success then Except.ok ()
    else Except.error (DfxError.BuildError (BuildErrorKind.IdlCompilerError o.stderr))

/- ---------- config (src/dfx/src/config/mod.rs) ---------- -/

/-- is_debug of src/dfx/src/config/mod.rs: compiled to `true` under
cfg(debug_assertions) and to `false` otherwise; the build configuration is
the explicit parameter here. -/
def is_debug (debug_assertions : Bool) : Bool :=
  debug_assertions

/-- InProjectEnvironment::is_installed (src/dfx/src/lib/env.rs): in debug a
version is never installed; otherwise defer to cache::is_version_installed
(config/cache.rs is not under src/, so the cache lookup is a parameter). -/
def InProjectEnvironment.is_installed (debug_assertions : Bool) (version : String)
    (is_version_installed : String → Except DfxError Bool) : Except DfxError Bool :=
  if is_debug debug_assertions then Except.ok false
  else is_version_installed version

/-- GlobalEnvironment::is_installed (src/dfx/src/lib/env.rs): same body as
the in-project variant. -/
def GlobalEnvironment.is_installed (debug_assertions : Bool) (version : String)
    (is_version_installed : String → Except DfxError Bool) : Except DfxError Bool :=
  if is_debug debug_assertions then Except.ok false
  else is_version_installed version

/-- dfx_version of src/dfx/src/config/mod.rs, as a step-indexed function of
the build configuration, the cargo package version, and the memoized global
DFX_VERSION. Each recursion step of the source consumes one unit of fuel;
`none` means the given fuel did not suffice (the call has not returned). The
source sets the memo only in debug mode and then recurses unconditionally. -/
def dfx_version_step : Nat → Bool → String → Option String → Option String
  | 0, _, _, _ => none
  | Nat.succ fuel, debug_assertions, pkg, st =>
    match st with
    | some x => some x
    | none =>
      if is_debug debug_assertions then
        dfx_version_step fuel debug_assertions pkg (some (pkg ++ "-debug"))
      else
        dfx_version_step fuel debug_assertions pkg none

/- ---------- watch worker (src/dfx/src/lib/build.rs) ---------- -/

/-- An observable action of the watch worker: a callback invocation
(on_start / on_done / on_error) or the release of the filesystem watch. -/
inductive WEvent where
  | onStart : String → WEvent
  | onDone : String → WEvent
  | onError : DfxError → WEvent
  | unwatch : WEvent
deriving DecidableEq

/-- Result of std::sync::mpsc::Receiver::try_recv: a message, an empty
channel whose sender is still alive, or a disconnected channel (every sender
dropped without a pending message). -/
inductive TryRecvResult where
  | received
  | empty
  | disconnected
deriving DecidableEq

/-- build_and_notify of src/dfx/src/lib/build.rs, as the sequence of callback
invocations it performs: on_start with the file path, then — the build result
being discarded, never returned — on_done with the output path on success or
on_error with the error. -/
def build_and_notify (env : BinaryResolverEnv) (file_path output_path : String) :
    List WEvent :=
  WEvent.onStart file_path ::
    (match (build_file env file_path output_path).2 with
     | Except.ok _ => [WEvent.onDone output_path]
     | Except.error e => [WEvent.onError e])

/-- The loop of the worker spawned by watch_file. Iteration i first polls the
cancellation channel (receiver.try_recv): on a received message it breaks and
releases the watch (unwatch). Otherwise it waits on the notification channel
(rx.recv_timeout(80ms), modelled by `event i`) and rebuilds exactly when a
notification arrived. `fuel` bounds how many iterations are observed; the
watch is released only by the break. -/
def watch_loop (env : BinaryResolverEnv) (file_path output_path : String)
    (cancel : Nat → TryRecvResult) (event : Nat → Bool) : Nat → Nat → List WEvent
  | _, 0 => []
  | i, Nat.succ fuel =>
    if cancel i = TryRecvResult.received then [WEvent.unwatch]
    else
      (if event i then build_and_notify env file_path output_path else []) ++
        watch_loop env file_path output_path cancel event (i + 1) fuel

/-- The rebuild actions of iterations [i, i+n) alone, one block per iteration
that received a notification. -/
def loop_events (env : BinaryResolverEnv) (file_path output_path : String)
    (event : Nat → Bool) : Nat → Nat → List WEvent
  | _, 0 => []
  | i, Nat.succ n =>
    (if event i then build_and_notify env file_path output_path else []) ++
      loop_events env file_path output_path event (i + 1) n

/-- The whole worker thread of watch_file: one unconditional initial build,
then the watch loop. -/
def worker_run (env : BinaryResolverEnv) (file_path output_path : String)
    (cancel : Nat → TryRecvResult) (event : Nat → Bool) (fuel : Nat) : List WEvent :=
  build_and_notify env file_path output_path ++
    watch_loop env file_path output_path cancel event 0 fuel

/-- The two fallible registration steps of watch_file before the worker is
spawned: notify::watcher(tx, 1s) and Watcher::watch(file, NonRecursive). -/
structure WatchSetup where
  createWatcher : Except DfxError Unit
  registerWatch : Except DfxError Unit

/-- watch_file of src/dfx/src/lib/build.rs: both registration steps are
propagated by the question-mark operator before any thread is spawned; on
success the spawned worker's observable behaviour is returned. -/
def watch_file (ws : WatchSetup) (env : BinaryResolverEnv)
    (file_path output_root : String) (cancel : Nat → TryRecvResult)
    (event : Nat → Bool) (fuel : Nat) : Except DfxError (List WEvent) :=
  match ws.createWatcher with
  | Except.error e => Except.error e
  | Except.ok _ =>
    match ws.registerWatch with
    | Except.error e => Except.error e
    | Except.ok _ =>
      Except.ok (worker_run env file_path output_root cancel event fuel)

/-- Is the event an on_start callback invocation. -/
def isStartEvent : WEvent → Bool
  | WEvent.onStart _ => true
  | _ => false

/-- Is the event a build-completion callback invocation (on_done or
on_error). -/
def isCompletionEvent : WEvent → Bool
  | WEvent.onDone _ => true
  | WEvent.onError _ => true
  | _ => false

/-- Number of rebuild starts (on_start invocations) in a trace. -/
def countStarts (l : List WEvent) : Nat :=
  l.countP isStartEvent

/-- Number of completed builds (on_done or on_error invocations) in a
trace. -/
def countCompletions (l : List WEvent) : Nat :=
  l.countP isCompletionEvent

/- ---------- debounced watcher (external notify primitive) ---------- -/

/-- The debounce delay watch_file configures on the notify watcher:
Duration::from_secs(1), in milliseconds. -/
def coalescingWindowMillis : Nat := 1000

/-- The timed receive used by the worker loop: Duration::from_millis(80). -/
def pollTimeoutMillis : Nat := 80

/-- Modelled from the spec: the external filesystem-watch primitive
(notify::watcher with a debounce delay) referenced by watch_file but
implemented outside this repository. Given the ascending timestamps (in
milliseconds) of raw change events, it delivers one notification per burst:
an event followed within the window by another event is coalesced into its
successor's notification; a notification is emitted once the stream has been
quiet for the window. -/
def debounceDeliver (window : Nat) : List Nat → List Nat
  | [] => []
  | [t] => [t + window]
  | t1 :: t2 :: rest =>
    if t2 - t1 < window then debounceDeliver window (t2 :: rest)
    else (t1 + window) :: debounceDeliver window (t2 :: rest)

/-- Ascending timestamps forming a single burst: each consecutive gap is
smaller than the window. -/
def burstWithin (window : Nat) : List Nat → Bool
  | [] => true
  | [_] => true
  | t1 :: t2 :: rest => (decide (t1 ≤ t2) && decide (t2 - t1 < window)) && burstWithin window (t2 :: rest)

/- ---------- one-shot command path (src/dfx/src/commands/build.rs) ---------- -/

/-- The per-canister body of commands/build.rs exec in one-shot mode: join
the project root with the declared main file, derive the output path in the
build root with extension "wasm", create the output directory (all missing
ancestors) with create_dir_all — a failure there propagates at once — and
only then call build_file. Returns the filesystem state, the commands
executed, and the result. -/
def exec_build_canister (env : BinaryResolverEnv) (fs : FS)
    (project_root build_root main_file : String) :
    FS × List Command × Except DfxError Unit :=
  let input_as_path := pathJoin project_root main_file
  let output_path := with_extension (pathJoin build_root main_file) "wasm"
  match create_dir_all (parentDir output_path) fs with
  | Except.error e => (fs, [], Except.error e)
  | Except.ok fs2 =>
    let r := build_file env input_as_path output_path
    (fs2, r.1, r.2)

deriving instance DecidableEq for Except

/- ---------- concrete instances used to exercise the model ---------- -/

/-- An environment whose every step spawns fine but exits with status 1 and
stderr "syntax error". -/
def envC1 : BinaryResolverEnv :=
  ⟨fun name => Except.ok ⟨name, []⟩, fun _ => Except.ok ⟨false, "syntax error"⟩⟩

/-- An environment where every binary resolves and every step succeeds. -/
def envOk : BinaryResolverEnv :=
  ⟨fun name => Except.ok ⟨name, []⟩, fun _ => Except.ok ⟨true, ""⟩⟩

/-- An environment where resolving any binary fails with an io error. -/
def envNotInstalled : BinaryResolverEnv :=
  ⟨fun _ => Except.error (DfxError.IoError "not installed"),
   fun _ => Except.error (DfxError.IoError "not installed")⟩

/-- A cancellation channel that holds a message from iteration 1 on. -/
def cancelAfterOne : Nat → TryRecvResult :=
  fun j => if 1 ≤ j then TryRecvResult.received else TryRecvResult.empty

/-- A cancellation channel whose sender was dropped without ever sending:
every try_recv observes a disconnection. -/
def cancelDropped : Nat → TryRecvResult :=
  fun _ => TryRecvResult.disconnected

/-- A notification schedule with a single notification at iteration 0. -/
def eventAtZero : Nat → Bool :=
  fun j => decide (j = 0)

/-- A watch setup whose watcher creation fails. -/
def wsDenied : WatchSetup :=
  ⟨Except.error (DfxError.IoError "watch denied"), Except.ok ()⟩

/-- A watch setup where registration succeeds. -/
def wsOk : WatchSetup :=
  ⟨Except.ok (), Except.ok ()⟩

/- ---------- helper lemmas ---------- -/

theorem build_and_notify_shape (env : BinaryResolverEnv) (fp out : String) :
    build_and_notify env fp out = [WEvent.onStart fp, WEvent.onDone out]
    ∨ ∃ e, build_and_notify env fp out = [WEvent.onStart fp, WEvent.onError e] := by
  unfold build_and_notify
  cases (build_file env fp out).2 with
  | error e => exact Or.inr ⟨e, rfl⟩
  | ok _ => exact Or.inl rfl

theorem countStarts_append (a b : List WEvent) :
    countStarts (a ++ b) = countStarts a + countStarts b := by
  simp [countStarts, List.countP_append]

theorem countCompletions_append (a b : List WEvent) :
    countCompletions (a ++ b) = countCompletions a + countCompletions b := by
  simp [countCompletions, List.countP_append]

theorem build_and_notify_counts (env : BinaryResolverEnv) (fp out : String) :
    countStarts (build_and_notify env fp out) = 1
    ∧ countCompletions (build_and_notify env fp out) = 1 := by
  rcases build_and_notify_shape env fp out with h | ⟨e, h⟩ <;>
    simp [h, countStarts, countCompletions, isStartEvent, isCompletionEvent]

theorem watch_loop_counts (env : BinaryResolverEnv) (fp out : String)
    (cancel : Nat → TryRecvResult) (event : Nat → Bool) :
    ∀ fuel i, countStarts (watch_loop env fp out cancel event i fuel)
      = countCompletions (watch_loop env fp out cancel event i fuel) := by
  intro fuel
  induction fuel with
  | zero => intro i; rfl
  | succ n ih =>
    intro i
    unfold watch_loop
    by_cases h : cancel i = TryRecvResult.received
    · rw [if_pos h]; rfl
    · rw [if_neg h, countStarts_append, countCompletions_append, ih (i + 1)]
      by_cases he : event i = true
      · rw [if_pos he, (build_and_notify_counts env fp out).1,
          (build_and_notify_counts env fp out).2]
      · rw [if_neg he]
        rfl

theorem watch_loop_cancelled (env : BinaryResolverEnv) (fp out : String)
    (cancel : Nat → TryRecvResult) (event : Nat → Bool) (k : Nat)
    (hk : ∀ j, k ≤ j → cancel j = TryRecvResult.received)
    (hlt : ∀ j, j < k → cancel j ≠ TryRecvResult.received) :
    ∀ fuel i, i ≤ k → k - i < fuel →
      watch_loop env fp out cancel event i fuel
        = loop_events env fp out event i (k - i) ++ [WEvent.unwatch] := by
  intro fuel
  induction fuel with
  | zero => intro i hik hf; omega
  | succ n ih =>
    intro i hik hf
    unfold watch_loop
    rcases Nat.lt_or_ge i k with hi | hi
    · rw [if_neg (hlt i hi)]
      obtain ⟨m, hm⟩ : ∃ m, k - i = m + 1 := ⟨k - i - 1, by omega⟩
      rw [hm]
      unfold loop_events
      rw [ih (i + 1) (by omega) (by omega)]
      have : k - (i + 1) = m := by omega
      rw [this, List.append_assoc]
    · have hik' : i = k := by omega
      rw [if_pos (hk i (by omega))]
      have : k - i = 0 := by omega
      rw [this]
      rfl

theorem watch_loop_no_cancel (env : BinaryResolverEnv) (fp out : String)
    (cancel : Nat → TryRecvResult) (event : Nat → Bool)
    (h : ∀ j, cancel j ≠ TryRecvResult.received) :
    ∀ fuel i, watch_loop env fp out cancel event i fuel
      = loop_events env fp out event i fuel := by
  intro fuel
  induction fuel with
  | zero => intro i; rfl
  | succ n ih =>
    intro i
    unfold watch_loop loop_events
    rw [if_neg (h i), ih (i + 1)]

theorem unwatch_not_in_build_and_notify (env : BinaryResolverEnv) (fp out : String) :
    WEvent.unwatch ∉ build_and_notify env fp out := by
  rcases build_and_notify_shape env fp out with h | ⟨e, h⟩ <;> simp [h]

theorem unwatch_not_in_loop_events (env : BinaryResolverEnv) (fp out : String)
    (event : Nat → Bool) :
    ∀ n i, WEvent.unwatch ∉ loop_events env fp out event i n := by
  intro n
  induction n with
  | zero => intro i; simp [loop_events]
  | succ m ih =>
    intro i
    unfold loop_events
    rw [List.mem_append]
    rintro (h | h)
    · by_cases he : event i = true
      · rw [if_pos he] at h
        exact unwatch_not_in_build_and_notify env fp out h
      · rw [if_neg he] at h
        simp at h
    · exact ih (i + 1) h

theorem loop_events_all_quiet (env : BinaryResolverEnv) (fp out : String)
    (event : Nat → Bool) :
    ∀ n i, (∀ j, i ≤ j → event j = false) →
      loop_events env fp out event i n = [] := by
  intro n
  induction n with
  | zero => intro i _; rfl
  | succ m ih =>
    intro i h
    unfold loop_events
    rw [h i (Nat.le_refl i), ih (i + 1) (fun j hj => h j (by omega))]
    rfl

theorem debounce_burst_length (window : Nat) :
    ∀ ts : List Nat, ts ≠ [] → burstWithin window ts = true →
      (debounceDeliver window ts).length = 1 := by
  intro ts
  induction ts with
  | nil => intro h _; exact absurd rfl h
  | cons t1 rest ih =>
    intro _ hburst
    cases rest with
    | nil => rfl
    | cons t2 rest2 =>
      unfold burstWithin at hburst
      rw [Bool.and_eq_true, Bool.and_eq_true] at hburst
      have hgap : t2 - t1 < window := of_decide_eq_true hburst.1.2
      unfold debounceDeliver
      rw [if_pos hgap]
      exact ih (by simp) hburst.2

theorem create_dir_all_ok_of_no_file (p : String) (fs : FS)
    (h : ∀ a ∈ pathPrefixes p, a ∉ fs.files) :
    ∃ fs2, create_dir_all p fs = Except.ok fs2 := by
  refine ⟨⟨fs.dirs ++ (pathPrefixes p).filter (fun a => decide (a ∉ fs.dirs)), fs.files⟩, ?_⟩
  unfold create_dir_all
  rw [if_neg (by
    simp only [List.any_eq_true, decide_eq_true_eq, not_exists]
    rintro a ⟨ha, hf⟩
    exact h a ha hf)]

theorem create_dir_all_spec (p : String) (fs fs2 : FS)
    (h : create_dir_all p fs = Except.ok fs2) :
    fs2.files = fs.files ∧ ∀ a, a ∈ pathPrefixes p → a ∈ fs2.dirs := by
  unfold create_dir_all at h
  by_cases hc : (pathPrefixes p).any (fun a => decide (a ∈ fs.files)) = true
  · rw [if_pos hc] at h; cases h
  · rw [if_neg hc] at h
    cases h
    refine ⟨rfl, ?_⟩
    intro a ha
    by_cases hd : a ∈ fs.dirs
    · exact List.mem_append.mpr (Or.inl hd)
    · exact List.mem_append.mpr (Or.inr (List.mem_filter.mpr ⟨ha, by simp [hd]⟩))

theorem create_dir_all_no_file_of_ok (p : String) (fs fs2 : FS)
    (h : create_dir_all p fs = Except.ok fs2) :
    ∀ a ∈ pathPrefixes p, a ∉ fs.files := by
  unfold create_dir_all at h
  by_cases hc : (pathPrefixes p).any (fun a => decide (a ∈ fs.files)) = true
  · rw [if_pos hc] at h; cases h
  · rw [if_neg hc] at h
    intro a ha hf
    exact hc (List.any_eq_true.mpr ⟨a, ha, by simp [hf]⟩)

/- ---------- claim theorems ---------- -/

/-- Claim C1 (code bug evidence): when the first step's child process exits
with status 1 and stderr "syntax error" (as does every later step in envC1),
build_file does not abort and does not surface a step error carrying the
stage and the stderr text: it runs all three commands and returns success,
because the ProcessOutput returned by output() is discarded without
inspecting the exit status or stderr. By contrast the step-command builder of
env.rs, given the same child behaviour, does return the step error the claim
describes — build_file simply never routes through it. -/
theorem build_file_ignores_nonzero_exit :
    build_file envC1 "main.src" "build/main"
      = ([⟨"asc", ["main.src", "-o", "build/main.wasm"]⟩,
          ⟨"asc", ["--idl", "main.src", "-o", "build/main.did"]⟩,
          ⟨"didc", ["--js", "build/main.did", "-o", "build/main.js"]⟩],
         Except.ok ())
    ∧ ActorScriptCommandBuilder.exec ⟨"asc", some "main.src", some "build/main.wasm", false⟩
        (fun _ => Except.ok ⟨false, "syntax error"⟩)
        = Except.error (DfxError.BuildError (BuildErrorKind.ActorScriptError "syntax error")) := by
  exact ⟨by decide, by decide⟩

/-- Claim C2: for every input path and output stem, a successful build_file
run executes exactly three commands, in the fixed order and with exactly the
argument lists derived from the stem by extension substitution: compiler with
`input -o stem.wasm`, compiler with `--idl input -o stem.did`, bindings
generator with `--js stem.did -o stem.js`, then returns success. -/
theorem build_file_three_commands (env : BinaryResolverEnv)
    (input output ascPath didcPath : String) (o1 o2 o3 : ProcessOutput)
    (hasc : env.get_binary_command "asc" = Except.ok ⟨ascPath, []⟩)
    (hdidc : env.get_binary_command "didc" = Except.ok ⟨didcPath, []⟩)
    (h1 : env.run_output ⟨ascPath, [input, "-o", with_extension output "wasm"]⟩ = Except.ok o1)
    (h2 : env.run_output ⟨ascPath, ["--idl", input, "-o", with_extension output "did"]⟩
        = Except.ok o2)
    (h3 : env.run_output ⟨didcPath, ["--js", with_extension output "did", "-o",
        with_extension output "js"]⟩ = Except.ok o3) :
    build_file env input output
      = ([⟨ascPath, [input, "-o", with_extension output "wasm"]⟩,
          ⟨ascPath, ["--idl", input, "-o", with_extension output "did"]⟩,
          ⟨didcPath, ["--js", with_extension output "did", "-o", with_extension output "js"]⟩],
         Except.ok ()) := by
  simp only [build_file, hasc, hdidc, List.nil_append, h1, h2, h3]

/-- Claim C2 witness: the concrete scenario of the spec — input `main.src`,
output stem `build/main`. -/
theorem build_file_three_commands_witness :
    build_file envOk "main.src" "build/main"
      = ([⟨"asc", ["main.src", "-o", "build/main.wasm"]⟩,
          ⟨"asc", ["--idl", "main.src", "-o", "build/main.did"]⟩,
          ⟨"didc", ["--js", "build/main.did", "-o", "build/main.js"]⟩],
         Except.ok ()) := by
  have h := build_file_three_commands envOk "main.src" "build/main" "asc" "didc"
    ⟨true, ""⟩ ⟨true, ""⟩ ⟨true, ""⟩ rfl rfl rfl rfl rfl
  exact h

/-- Claim C6 (code bug evidence): the step-command builders of env.rs do not
assemble the documented grammar order. ActorScriptCommandBuilder::exec pushes
the input path, then -o with the output path, and appends --idl last, so the
interface-description invocation is `bin input -o output --idl`, not
`bin --idl input -o output`; IdlCompilerCommandBuilder::exec likewise appends
--js last. The grammar with the flag first is exactly what build_file itself
passes for the same binaries, and what the repository's own test asserts. -/
theorem builders_append_flag_last :
    (ActorScriptCommandBuilder.exec_cmd ⟨"asc", some "main.src", some "build/main.did", true⟩).args
        = ["main.src", "-o", "build/main.did", "--idl"]
    ∧ (ActorScriptCommandBuilder.exec_cmd
        ⟨"asc", some "main.src", some "build/main.did", true⟩).args
        ≠ ["--idl", "main.src", "-o", "build/main.did"]
    ∧ (IdlCompilerCommandBuilder.exec_cmd
        ⟨"didc", some "build/main.did", some "build/main.js", true⟩).args
        = ["build/main.did", "-o", "build/main.js", "--js"]
    ∧ (IdlCompilerCommandBuilder.exec_cmd
        ⟨"didc", some "build/main.did", some "build/main.js", true⟩).args
        ≠ ["--js", "build/main.did", "-o", "build/main.js"] := by
  exact ⟨by decide, by decide, by decide, by decide⟩

/-- Claim C8: in debug/development mode (cfg(debug_assertions) on, so
is_debug returns true) both environments' is_installed reports Ok(false) for
every version string and every state of the on-disk cache, so the install
manager re-provisions on every run. -/
theorem is_installed_debug_always_false (version : String)
    (is_version_installed : String → Except DfxError Bool) :
    InProjectEnvironment.is_installed true version is_version_installed = Except.ok false
    ∧ GlobalEnvironment.is_installed true version is_version_installed = Except.ok false :=
  ⟨rfl, rfl⟩

/-- Claim C10 (code bug evidence): dfx_version terminates only in debug
builds. In a release build (debug_assertions off) the memo DFX_VERSION is
never set — the code only assigns it under is_debug() — and the function
recurses unconditionally, so no amount of fuel makes the call return: the
first call in a release binary never terminates. In debug builds two steps
suffice and the memoized value is the package version with the "-debug"
suffix; once the memo is set, every call returns it unchanged. -/
theorem dfx_version_release_diverges (pkg : String) :
    (∀ fuel, dfx_version_step fuel false pkg none = none)
    ∧ (∀ fuel, dfx_version_step (fuel + 2) true pkg none = some (pkg ++ "-debug"))
    ∧ (∀ fuel debug_assertions x,
        dfx_version_step (fuel + 1) debug_assertions pkg (some x) = some x) := by
  refine ⟨?_, ?_, ?_⟩
  · intro fuel
    induction fuel with
    | zero => rfl
    | succ n ih => exact ih
  · intro fuel
    rfl
  · intro fuel debug_assertions x
    rfl

/-- Claim C3: once a cancellation message is observable (from iteration k
on), the worker performs no rebuild of any later iteration — the trace equals
the rebuilds of the earlier iterations followed by the release of the watch —
the very last action before the worker exits is the unwatch, after which no
further callback appears, and every rebuild that starts runs to completion
(starts and completions balance): cancellation is polled once per loop
iteration and never interrupts a build in progress. -/
theorem watch_file_cancellation (env : BinaryResolverEnv) (fp out : String)
    (cancel : Nat → TryRecvResult) (event : Nat → Bool) (k fuel : Nat)
    (hk : ∀ j, k ≤ j → cancel j = TryRecvResult.received)
    (hlt : ∀ j, j < k → cancel j ≠ TryRecvResult.received)
    (hfuel : k < fuel) :
    worker_run env fp out cancel event fuel
      = build_and_notify env fp out
        ++ (loop_events env fp out event 0 k ++ [WEvent.unwatch])
    ∧ (worker_run env fp out cancel event fuel).getLast? = some WEvent.unwatch
    ∧ countStarts (worker_run env fp out cancel event fuel)
        = countCompletions (worker_run env fp out cancel event fuel) := by
  have h1 := watch_loop_cancelled env fp out cancel event k hk hlt fuel 0 (Nat.zero_le k)
    (by omega)
  rw [Nat.sub_zero] at h1
  refine ⟨?_, ?_, ?_⟩
  · rw [worker_run, h1]
  · rw [worker_run, h1, ← List.append_assoc, List.getLast?_concat]
  · rw [worker_run, countStarts_append, countCompletions_append,
      (build_and_notify_counts env fp out).1, (build_and_notify_counts env fp out).2,
      watch_loop_counts]

/-- Claim C3 witness: cancellation message present from iteration 1 on, one
notification at iteration 0, fuel 3. -/
theorem watch_file_cancellation_witness :
    worker_run envOk "main.src" "build/main" cancelAfterOne eventAtZero 3
      = build_and_notify envOk "main.src" "build/main"
        ++ (loop_events envOk "main.src" "build/main" eventAtZero 0 1 ++ [WEvent.unwatch])
    ∧ (worker_run envOk "main.src" "build/main" cancelAfterOne eventAtZero 3).getLast?
        = some WEvent.unwatch
    ∧ countStarts (worker_run envOk "main.src" "build/main" cancelAfterOne eventAtZero 3)
        = countCompletions (worker_run envOk "main.src" "build/main" cancelAfterOne eventAtZero 3) :=
  watch_file_cancellation envOk "main.src" "build/main" cancelAfterOne eventAtZero 1 3
    (fun j hj => by simp only [cancelAfterOne]; rw [if_pos hj])
    (fun j hj => by simp only [cancelAfterOne]; rw [if_neg (by omega)]; decide)
    (by omega)

/-- Claim C9: when the cancellation sender is dropped without ever sending —
as the watch-mode command path does immediately after spawning — every
try_recv poll observes a disconnection, which is not a received message, so
the loop never breaks: the worker's loop behaves exactly as an uncancelled
loop for any amount of fuel, the watch is never released, and the worker
keeps watching and rebuilding indefinitely. -/
theorem watch_dropped_sender_never_stops (env : BinaryResolverEnv) (fp out : String)
    (cancel : Nat → TryRecvResult) (event : Nat → Bool) (fuel : Nat)
    (h : ∀ j, cancel j = TryRecvResult.disconnected) :
    watch_loop env fp out cancel event 0 fuel = loop_events env fp out event 0 fuel
    ∧ WEvent.unwatch ∉ worker_run env fp out cancel event fuel := by
  have hne : ∀ j, cancel j ≠ TryRecvResult.received := by
    intro j
    rw [h j]
    decide
  have h1 := watch_loop_no_cancel env fp out cancel event hne fuel 0
  refine ⟨h1, ?_⟩
  rw [worker_run, h1, List.mem_append]
  rintro (hmem | hmem)
  · exact unwatch_not_in_build_and_notify env fp out hmem
  · exact unwatch_not_in_loop_events env fp out event fuel 0 hmem

/-- Claim C9 witness: a dropped sender (every poll disconnected) with one
notification, fuel 2. -/
theorem watch_dropped_sender_never_stops_witness :
    watch_loop envOk "main.src" "build/main" cancelDropped eventAtZero 0 2
      = loop_events envOk "main.src" "build/main" eventAtZero 0 2
    ∧ WEvent.unwatch ∉ worker_run envOk "main.src" "build/main" cancelDropped eventAtZero 2 :=
  watch_dropped_sender_never_stops envOk "main.src" "build/main" cancelDropped eventAtZero 2
    (fun _ => rfl)

/-- Claim C4: a burst of N ≥ 1 raw filesystem-change events whose gaps all
lie within the fixed coalescing window (the 1-second debounce watch_file
configures on the notify watcher) is delivered to the worker as exactly one
notification once the stream has been quiet for the window, and the worker
triggers exactly one rebuild for the whole burst, not N. -/
theorem debounce_coalesces_burst (env : BinaryResolverEnv) (fp out : String)
    (ts : List Nat) (fuel : Nat)
    (hne : ts ≠ [])
    (hburst : burstWithin coalescingWindowMillis ts = true)
    (hfuel : 1 ≤ fuel) :
    (debounceDeliver coalescingWindowMillis ts).length = 1
    ∧ countStarts (loop_events env fp out
        (fun i => decide (i < (debounceDeliver coalescingWindowMillis ts).length)) 0 fuel)
      = 1 := by
  have hlen := debounce_burst_length coalescingWindowMillis ts hne hburst
  refine ⟨hlen, ?_⟩
  obtain ⟨n, rfl⟩ : ∃ n, fuel = n + 1 := ⟨fuel - 1, by omega⟩
  simp only [hlen]
  unfold loop_events
  have hq : loop_events env fp out (fun i => decide (i < 1)) (0 + 1) n = [] :=
    loop_events_all_quiet env fp out (fun i => decide (i < 1)) n (0 + 1)
      (fun j hj => by simp only [decide_eq_false_iff_not]; omega)
  rw [if_pos (show (fun i : Nat => decide (i < 1)) 0 = true from rfl), countStarts_append, hq,
    (build_and_notify_counts env fp out).1]
  rfl

/-- Claim C4 witness: three raw events at 0ms, 100ms and 250ms — one burst
inside the 1000ms window — yield one notification and one rebuild. -/
theorem debounce_coalesces_burst_witness :
    burstWithin coalescingWindowMillis [0, 100, 250] = true
    ∧ (debounceDeliver coalescingWindowMillis [0, 100, 250]).length = 1
    ∧ countStarts (loop_events envOk "main.src" "build/main"
        (fun i => decide (i < (debounceDeliver coalescingWindowMillis [0, 100, 250]).length))
        0 2) = 1 :=
  ⟨by decide,
   (debounce_coalesces_burst envOk "main.src" "build/main" [0, 100, 250] 2
      (by decide) (by decide) (by decide)).1,
   (debounce_coalesces_burst envOk "main.src" "build/main" [0, 100, 250] 2
      (by decide) (by decide) (by decide)).2⟩

/-- Claim C5: a registration-time failure (creating the watcher or
registering the watch) propagates out of watch_file before any worker is
spawned and any build performed; once registration succeeds, watch_file
returns Ok for every environment — a build failure is never returned to the
spawning caller — and each build failure is reported exclusively through the
on_error callback, after which the worker returns to waiting. -/
theorem watch_errors_only_via_on_error (ws : WatchSetup) (env : BinaryResolverEnv)
    (fp out : String) (cancel : Nat → TryRecvResult) (event : Nat → Bool)
    (fuel : Nat) (e : DfxError) :
    (ws.createWatcher = Except.error e →
        watch_file ws env fp out cancel event fuel = Except.error e)
    ∧ (ws.createWatcher = Except.ok () → ws.registerWatch = Except.error e →
        watch_file ws env fp out cancel event fuel = Except.error e)
    ∧ (ws.createWatcher = Except.ok () → ws.registerWatch = Except.ok () →
        watch_file ws env fp out cancel event fuel
          = Except.ok (worker_run env fp out cancel event fuel))
    ∧ ((build_file env fp out).2 = Except.error e →
        build_and_notify env fp out = [WEvent.onStart fp, WEvent.onError e])
    ∧ ((build_file env fp out).2 = Except.ok () →
        build_and_notify env fp out = [WEvent.onStart fp, WEvent.onDone out]) := by
  refine ⟨?_, ?_, ?_, ?_, ?_⟩
  · intro h1
    unfold watch_file
    rw [h1]
  · intro h1 h2
    unfold watch_file
    rw [h1, h2]
  · intro h1 h2
    unfold watch_file
    rw [h1, h2]
  · intro h
    unfold build_and_notify
    rw [h]
  · intro h
    unfold build_and_notify
    rw [h]

/-- Claim C5 witness: a denied watcher propagates its error; with
registration fine, an environment whose every build fails still makes
watch_file return Ok, and the failure surfaces as an on_error callback. -/
theorem watch_errors_only_via_on_error_witness :
    watch_file wsDenied envOk "main.src" "build/main" cancelDropped eventAtZero 1
        = Except.error (DfxError.IoError "watch denied")
    ∧ watch_file wsOk envNotInstalled "main.src" "build/main" cancelDropped eventAtZero 1
        = Except.ok (worker_run envNotInstalled "main.src" "build/main" cancelDropped eventAtZero 1)
    ∧ build_and_notify envNotInstalled "main.src" "build/main"
        = [WEvent.onStart "main.src", WEvent.onError (DfxError.IoError "not installed")] :=
  ⟨(watch_errors_only_via_on_error wsDenied envOk "main.src" "build/main" cancelDropped
      eventAtZero 1 (DfxError.IoError "watch denied")).1 rfl,
   (watch_errors_only_via_on_error wsOk envNotInstalled "main.src" "build/main" cancelDropped
      eventAtZero 1 (DfxError.IoError "watch denied")).2.2.1 rfl rfl,
   (watch_errors_only_via_on_error wsOk envNotInstalled "main.src" "build/main" cancelDropped
      eventAtZero 1 (DfxError.IoError "not installed")).2.2.2.1 rfl⟩

/-- Claim C7: the one-shot command path creates the output directory with all
missing ancestors before build_file is entered — if create_dir_all fails, the
run aborts with that error and no external command is executed — and the
creation is idempotent: after a successful creation, every ancestor is a
directory and creating again over the resulting state always succeeds,
whether or not the directory pre-existed. -/
theorem output_dir_created_first (env : BinaryResolverEnv) (fs : FS)
    (project_root build_root main_file : String) :
    (∀ e, create_dir_all (parentDir (with_extension (pathJoin build_root main_file) "wasm")) fs
          = Except.error e →
        exec_build_canister env fs project_root build_root main_file = (fs, [], Except.error e))
    ∧ (∀ fs2,
        create_dir_all (parentDir (with_extension (pathJoin build_root main_file) "wasm")) fs
          = Except.ok fs2 →
        (∀ a, a ∈ pathPrefixes (parentDir (with_extension (pathJoin build_root main_file) "wasm"))
            → a ∈ fs2.dirs)
        ∧ ∃ fs3,
            create_dir_all (parentDir (with_extension (pathJoin build_root main_file) "wasm")) fs2
              = Except.ok fs3) := by
  constructor
  · intro e he
    simp only [exec_build_canister]
    rw [he]
  · intro fs2 h2
    refine ⟨(create_dir_all_spec _ fs fs2 h2).2, ?_⟩
    apply create_dir_all_ok_of_no_file
    intro a ha
    rw [(create_dir_all_spec _ fs fs2 h2).1]
    exact create_dir_all_no_file_of_ok _ fs fs2 h2 a ha

/-- Claim C7 witness: with a regular file sitting at "build", the run aborts
with no command executed; on an empty filesystem the directory is created and
a second creation over the result succeeds. -/
theorem output_dir_created_first_witness :
    exec_build_canister envOk ⟨[], ["build"]⟩ "proj" "build" "main.src"
        = (⟨[], ["build"]⟩, [], Except.error (DfxError.IoError "NotADirectory"))
    ∧ "build" ∈ (FS.mk ["build"] []).dirs
    ∧ ∃ fs3, create_dir_all (parentDir (with_extension (pathJoin "build" "main.src") "wasm"))
        ⟨["build"], []⟩ = Except.ok fs3 :=
  ⟨(output_dir_created_first envOk ⟨[], ["build"]⟩ "proj" "build" "main.src").1
      (DfxError.IoError "NotADirectory") (by decide),
   ((output_dir_created_first envOk ⟨[], []⟩ "proj" "build" "main.src").2
      ⟨["build"], []⟩ (by decide)).1 "build" (by decide),
   ((output_dir_created_first envOk ⟨[], []⟩ "proj" "build" "main.src").2
      ⟨["build"], []⟩ (by decide)).2⟩
